import Mathlib

/-!
Shallow embedding of the POPR purchase-order core
(src/domain/entities/purchase_order.py and the process / approve use cases)
and proofs about the claims of its specification.

Modelling conventions:
* Python `Decimal` values are embedded as exact rationals (`ℚ`).
* `datetime` values are embedded as integer timestamps; every method that
  calls `datetime.now()` in the source receives the current instant as an
  explicit `now : Int` argument (all `now()` calls inside one method denote
  the same instant).  `timedelta(minutes=d)` becomes `d * 60`.
* Mutating methods of the Python class become functions
  `PurchaseOrder → ... → PurchaseOrder × Except String Unit`: the first
  component is the state of the object after the call (including partial
  mutations performed before a `raise`), the second is `ok` for normal
  return and `error msg` for a raised exception carrying `msg`.
* Python string formatting of values (`Decimal`, `datetime`, lists) is
  rendered with `toString`; the exact digits of a formatted number are an
  abstraction, and strings avoid the apostrophe character.
* `Optional[str]` truthiness (`if not self.locked_by`) is modelled by
  `optTruthy`, which is false for `none` and for the empty string.
-/

namespace POPR

/-- The eleven states of `POStatus` in purchase_order.py. -/
inductive POStatus where
  | DRAFT
  | PENDING
  | LOCKED
  | PROCESSING
  | RECONCILING
  | AWAITING_APPROVAL
  | APPROVED
  | REJECTED
  | CANCELLED
  | ERROR
  | COMPLETED
deriving DecidableEq

/-- The `.value` string of each enum member. -/
def POStatus.value : POStatus → String
  | .DRAFT => "draft"
  | .PENDING => "pending"
  | .LOCKED => "locked"
  | .PROCESSING => "processing"
  | .RECONCILING => "reconciling"
  | .AWAITING_APPROVAL => "awaiting_approval"
  | .APPROVED => "approved"
  | .REJECTED => "rejected"
  | .CANCELLED => "cancelled"
  | .ERROR => "error"
  | .COMPLETED => "completed"

/-- Truthiness of an `Optional[str]`: `None` and `""` are falsy. -/
def optTruthy : Option String → Bool
  | none => false
  | some s => s ≠ ""

/-- Rendering of an `Optional[str]` inside an f-string (`None` prints as "None"). -/
def optRepr : Option String → String
  | none => "None"
  | some s => s

/-- Rendering of an optional timestamp inside an f-string. -/
def optTimeRepr : Option Int → String
  | none => "None"
  | some t => toString t

/-- Model of `x or default` on an optional string (Python truthiness). -/
def strOr (o : Option String) (d : String) : String :=
  match o with
  | none => d
  | some s => if s = "" then d else s

/-- Payload of the `data` dict of each audit event appended by the entity. -/
inductive EventData where
  | status_changed (fromValue toValue reason user : String)
  | lock_acquired (user : String) (expires_at : Int)
  | lock_released (user : String)
  | lock_expired
  | approved (user : String) (notes : Option String)
  | rejected (user reason : String)
deriving DecidableEq

/-- One entry of the append-only audit log (`add_event`). -/
structure Event where
  timestamp : Int
  event_type : String
  status : String
  version : Nat
  data : EventData
deriving DecidableEq

/-- Model of `POItem` dataclass. -/
structure POItem where
  item_number : String
  description : String
  quantity : ℚ
  unit_price : ℚ
  total_price : ℚ
  material_code : Option String := none
deriving DecidableEq

/-- Model of `POItem.validate`: the total is correct within 0.01. -/
def POItem.validate (it : POItem) : Bool :=
  decide (|it.quantity * it.unit_price - it.total_price| < 1/100)

/-- The `PurchaseOrder` dataclass. -/
structure PurchaseOrder where
  id : String
  po_number : String
  vendor_code : String
  vendor_name : String
  total_amount : ℚ
  currency : String := "BRL"
  items : List POItem := []
  status : POStatus := .DRAFT
  version : Nat := 1
  locked_by : Option String := none
  locked_at : Option Int := none
  lock_expires_at : Option Int := none
  created_at : Int := 0
  updated_at : Int := 0
  sap_doc_number : Option String := none
  sap_fiscal_year : Option String := none
  reconciliation_status : Option String := none
  reconciliation_notes : Option String := none
  discrepancies : List String := []
  created_by : String := "system"
  approved_by : Option String := none
  approved_at : Option Int := none
  rejection_reason : Option String := none
  events : List Event := []
deriving DecidableEq

namespace PurchaseOrder

/-- Model of `add_event`: append one audit entry recording the current status and version. -/
def add_event (po : PurchaseOrder) (now : Int) (event_type : String)
    (data : EventData) : PurchaseOrder :=
  { po with events := po.events ++
      [{ timestamp := now, event_type := event_type, status := po.status.value,
         version := po.version, data := data }] }

/-- The `VALID_TRANSITIONS` table of `can_transition_to`. -/
def VALID_TRANSITIONS : POStatus → List POStatus
  | .DRAFT => [.PENDING, .CANCELLED]
  | .PENDING => [.LOCKED, .CANCELLED]
  | .LOCKED => [.PROCESSING, .PENDING, .ERROR]
  | .PROCESSING => [.RECONCILING, .ERROR]
  | .RECONCILING => [.AWAITING_APPROVAL, .APPROVED, .ERROR]
  | .AWAITING_APPROVAL => [.APPROVED, .REJECTED]
  | .APPROVED => [.COMPLETED]
  | .REJECTED => [.PENDING, .CANCELLED]
  | .ERROR => [.PENDING, .CANCELLED]
  | .CANCELLED => []
  | .COMPLETED => []

/-- Model of `can_transition_to`: membership in the table row of the current status. -/
def can_transition_to (po : PurchaseOrder) (new_status : POStatus) : Bool :=
  decide (new_status ∈ VALID_TRANSITIONS po.status)

/-- Model of `transition_to`: on a valid transition update status / updated_at / version
and append a "status_changed" event; otherwise raise ValueError without
touching the object. -/
def transition_to (po : PurchaseOrder) (new_status : POStatus)
    (reason user : String) (now : Int) : PurchaseOrder × Except String Unit :=
  if po.can_transition_to new_status then
    let old_status := po.status
    let po := { po with status := new_status, updated_at := now,
                        version := po.version + 1 }
    (po.add_event now "status_changed"
        (.status_changed old_status.value new_status.value reason user),
     Except.ok ())
  else
    (po, Except.error
      ("Invalid transition: " ++ po.status.value ++ " -> " ++ new_status.value))

/-- Shared tail of `acquire_lock` / `approve` / `reject`: perform the checked
transition and, when it succeeds, append the follow-up audit event; a raised
transition error propagates with the state as mutated so far. -/
def transition_then_event (po : PurchaseOrder) (s : POStatus)
    (reason user : String) (now : Int) (et : String) (ed : EventData) :
    PurchaseOrder × Except String Unit :=
  let t := po.transition_to s reason user now
  match t.2 with
  | Except.error e => (t.1, Except.error e)
  | Except.ok _ => (t.1.add_event now et ed, Except.ok ())

/-- Model of `is_locked`: true only with a (truthy) holder and an unexpired deadline;
an expired lock is cleared as a side effect with a "lock_expired" event. -/
def is_locked (po : PurchaseOrder) (now : Int) : Bool × PurchaseOrder :=
  if optTruthy po.locked_by then
    match po.lock_expires_at with
    | some exp =>
        if now > exp then
          (false,
           ({ po with locked_by := none, locked_at := none,
                      lock_expires_at := none }).add_event now "lock_expired"
             .lock_expired)
        else (true, po)
    | none => (true, po)
  else (false, po)

/-- Model of `acquire_lock`: raise if already locked; otherwise set the lock fields,
force a transition to LOCKED and append a "lock_acquired" event.  The lock
fields are written before the transition, so a failing transition leaves
them set (the premature-mutation the claims examine). -/
def acquire_lock (po : PurchaseOrder) (user : String) (duration_minutes : Int)
    (now : Int) : PurchaseOrder × Except String Unit :=
  let l := po.is_locked now
  if l.1 then
    (l.2, Except.error ("PO already locked by " ++ optRepr l.2.locked_by
      ++ " until " ++ optTimeRepr l.2.lock_expires_at))
  else
    let po := { l.2 with locked_by := some user, locked_at := some now,
                         lock_expires_at := some (now + duration_minutes * 60) }
    po.transition_then_event .LOCKED ("Locked by " ++ user) user now
      "lock_acquired" (.lock_acquired user (now + duration_minutes * 60))

/-- Model of `release_lock`: no-op when unlocked; raise on a foreign lock; otherwise
clear the lock fields and append "lock_released" (the version counter is
not touched by this method in the source). -/
def release_lock (po : PurchaseOrder) (user : String) (now : Int) :
    PurchaseOrder × Except String Unit :=
  let l := po.is_locked now
  if ¬ l.1 then (l.2, Except.ok ())
  else if l.2.locked_by ≠ some user then
    (l.2, Except.error ("Cannot release lock. Locked by "
      ++ optRepr l.2.locked_by ++ ", trying to release by " ++ user))
  else
    (({ l.2 with locked_by := none, locked_at := none,
                 lock_expires_at := none }).add_event now "lock_released"
        (.lock_released user),
     Except.ok ())

/-- Model of `APPROVAL_THRESHOLD` of `requires_approval`. -/
def APPROVAL_THRESHOLD : ℚ := 10000

/-- Model of `requires_approval`: strictly above the fixed threshold. -/
def requires_approval (po : PurchaseOrder) : Bool :=
  decide (APPROVAL_THRESHOLD < po.total_amount)

/-- Model of `VALID_CURRENCIES` of `validate`. -/
def VALID_CURRENCIES : List String := ["BRL", "USD", "EUR"]

/-- Model of `sum(item.total_price for item in self.items)`. -/
def itemsTotal (items : List POItem) : ℚ :=
  (items.map POItem.total_price).sum

/-- The per-item loop of `validate` (`enumerate` index carried explicitly). -/
def itemsErrors : Nat → List POItem → List String
  | _, [] => []
  | idx, it :: rest =>
      (if it.validate then []
       else ["Item " ++ toString (idx + 1) ++ " has invalid calculations"])
      ++ itemsErrors (idx + 1) rest

/-- Model of `validate`: the error list is the concatenation of each check of the
source, in source order; the first component is `len(errors) == 0`. -/
def validate (po : PurchaseOrder) : Bool × List String :=
  let errors : List String :=
    (if po.total_amount ≤ 0 then ["Total amount must be positive"] else [])
    ++ (if po.vendor_code = "" ∨ po.vendor_code.length < 3
        then ["Invalid vendor code"] else [])
    ++ (if po.vendor_name = "" then ["Vendor name is required"] else [])
    ++ (if po.currency ∉ VALID_CURRENCIES
        then ["Invalid currency: " ++ po.currency ++ ". Must be one of "
              ++ toString VALID_CURRENCIES] else [])
    ++ (if po.items = [] then ["PO must have at least one item"] else [])
    ++ (if po.items ≠ [] ∧ |itemsTotal po.items - po.total_amount| > 1/100
        then ["Items total (" ++ toString (itemsTotal po.items)
              ++ ") does not match PO total (" ++ toString po.total_amount ++ ")"]
        else [])
    ++ itemsErrors 0 po.items
  (errors.isEmpty, errors)

/-- Model of `approve`: only from AWAITING_APPROVAL or RECONCILING; records the
approver and timestamp, transitions to APPROVED, appends "approved". -/
def approve (po : PurchaseOrder) (user : String) (notes : Option String)
    (now : Int) : PurchaseOrder × Except String Unit :=
  if po.status ≠ .AWAITING_APPROVAL ∧ po.status ≠ .RECONCILING then
    (po, Except.error ("Cannot approve PO in status " ++ po.status.value))
  else
    let po := { po with approved_by := some user, approved_at := some now }
    po.transition_then_event .APPROVED (strOr notes "Approved") user now
      "approved" (.approved user notes)

/-- Model of `reject`: only from AWAITING_APPROVAL; records the reason, transitions
to REJECTED, appends "rejected". -/
def reject (po : PurchaseOrder) (user reason : String) (now : Int) :
    PurchaseOrder × Except String Unit :=
  if po.status ≠ .AWAITING_APPROVAL then
    (po, Except.error ("Cannot reject PO in status " ++ po.status.value))
  else
    let po := { po with rejection_reason := some reason }
    po.transition_then_event .REJECTED reason user now
      "rejected" (.rejected user reason)

end PurchaseOrder

/-! ## Application layer: the process-PO saga (process_po.py) -/

/-- The SAP snapshot dict returned by `sap.get_po_data`.  Missing dict keys
are `none`; only the length of the "items" list is ever read by the core,
so it is carried as a count. -/
structure SAPData where
  vendor_code : Option String := none
  total_amount : Option ℚ := none
  items_count : Nat := 0
  sap_doc_number : Option String := none
  sap_fiscal_year : Option String := none
deriving DecidableEq

/-- Model of `ProcessPOCommand`. -/
structure ProcessPOCommand where
  po_number : String
  user : String
  force_approval : Bool := false
  skip_sap_lock : Bool := false
  notify_on_complete : Bool := true
deriving DecidableEq

/-- Model of `ProcessPOResult` (the wall-clock `processing_time_seconds` float is the
one field not modelled). -/
structure ProcessPOResult where
  success : Bool
  po : Option PurchaseOrder
  message : String
  errors : List String
  events_published : Nat
  validation_passed : Bool := false
  sap_sync_completed : Bool := false
  reconciliation_passed : Bool := false
  approval_status : String := "pending"
  invoice_posted : Bool := false
deriving DecidableEq

/-- Deterministic outcomes of the external collaborators during one run of
the saga.  The repository is in-memory (`save` returns its argument), so
only the initial fetch matters; gateway and notifier calls whose exceptions
the source swallows locally are carried as the `Bool` the wrapper returns,
the unguarded ones as `Except` (an `error` is a raised exception). -/
structure Env where
  fetched_po : Option PurchaseOrder
  lock_document_ok : Bool := true
  get_po_data : Except String SAPData := Except.ok {}
  notify_approval_required : Except String Bool := Except.ok true
  post_invoice_ok : Bool := true
  unlock_document : Except String Bool := Except.ok true

namespace ProcessPOUseCase

/-- The single `except Exception` block of `execute`: force-transition to
ERROR, release the lock and notify, each step abandoned (bare `except:
pass`) as soon as one of them raises; then build the structured failure
result (milestone booleans at their dataclass defaults). -/
def cleanup (po : PurchaseOrder) (msg user : String) (now : Int) :
    PurchaseOrder :=
  let t := po.transition_to .ERROR msg user now
  match t.2 with
  | Except.error _ => t.1
  | Except.ok _ => (t.1.release_lock user now).1

/-- The failure result returned after the `except Exception` block. -/
def mkFailure (cmd : ProcessPOCommand) (msg : String)
    (fetched : Option PurchaseOrder) (events : Nat) (now : Int) :
    ProcessPOResult :=
  { success := false,
    po := fetched.map (fun po => cleanup po msg cmd.user now),
    message := "Error processing PO: " ++ msg,
    errors := [msg],
    events_published := events }

/-- Model of `_reconcile_data`: compare vendor, amount (tolerance 0.01) and item
count against the snapshot, writing the outcome onto the aggregate. -/
def reconcileData (po : PurchaseOrder) (sap : SAPData) :
    Bool × PurchaseOrder :=
  let ds : List String :=
    (if sap.vendor_code ≠ some po.vendor_code
     then ["Vendor mismatch: PO=" ++ po.vendor_code ++ ", SAP="
           ++ optRepr sap.vendor_code] else [])
    ++ (if |po.total_amount - (sap.total_amount.getD 0)| > 1/100
        then ["Amount mismatch: PO=" ++ toString po.total_amount ++ ", SAP="
              ++ toString (sap.total_amount.getD 0)] else [])
    ++ (if po.items.length ≠ sap.items_count
        then ["Items count mismatch: PO=" ++ toString po.items.length
              ++ ", SAP=" ++ toString sap.items_count] else [])
  if ds ≠ [] then
    (false, { po with discrepancies := ds,
                      reconciliation_status := some "failed",
                      reconciliation_notes := some (String.intercalate "; " ds) })
  else
    (true, { po with reconciliation_status := some "success",
                     reconciliation_notes := some "All data reconciled successfully" })

/-- Steps 8-11 of `execute`: optional invoice posting (its boolean is used
only for the event counter), completion, lock release, SAP unlock,
completion notification, and the final success result — whose
`invoice_posted` field is the literal `True` of the source. -/
def step8to11 (env : Env) (cmd : ProcessPOCommand) (now : Int)
    (po : PurchaseOrder) (events : Nat) : ProcessPOResult :=
  let events := if po.status = .APPROVED ∧ env.post_invoice_ok
                then events + 1 else events
  let t := po.transition_to .COMPLETED "Processing completed" cmd.user now
  match t.2 with
  | Except.error e => mkFailure cmd e (some t.1) events now
  | Except.ok _ =>
  let po := t.1
  let events := events + 1
  let rl := po.release_lock cmd.user now
  match rl.2 with
  | Except.error e => mkFailure cmd e (some rl.1) events now
  | Except.ok _ =>
  let po := rl.1
  let events := events + 1
  match (if optTruthy po.sap_doc_number then env.unlock_document
         else Except.ok true) with
  | Except.error e => mkFailure cmd e (some po) events now
  | Except.ok _ =>
  let events := if cmd.notify_on_complete then events + 1 else events
  { success := true,
    po := some po,
    message := "PO " ++ cmd.po_number ++ " processed successfully",
    errors := [],
    events_published := events,
    validation_passed := true,
    sap_sync_completed := true,
    reconciliation_passed := true,
    approval_status := if cmd.force_approval then "manual" else "auto",
    invoice_posted := true }

/-- Step 7 of `execute` (`_process_approval`): park in AWAITING_APPROVAL
(the approval-required notification is not guarded by a try in the source)
or auto-approve as system and continue. -/
def step7 (env : Env) (cmd : ProcessPOCommand) (now : Int)
    (po : PurchaseOrder) (events : Nat) : ProcessPOResult :=
  if po.requires_approval || cmd.force_approval then
    let t := po.transition_to .AWAITING_APPROVAL
        ("Amount " ++ toString po.total_amount ++ " requires approval")
        cmd.user now
    match t.2 with
    | Except.error e => mkFailure cmd e (some t.1) events now
    | Except.ok _ =>
    let po := t.1
    let events := events + 1
    match env.notify_approval_required with
    | Except.error e => mkFailure cmd e (some po) events now
    | Except.ok _ =>
      { success := true,
        po := some po,
        message := "PO awaiting manual approval",
        errors := [],
        events_published := events + 1,
        validation_passed := true,
        sap_sync_completed := true,
        reconciliation_passed := true,
        approval_status := "pending" }
  else
    let ap := po.approve "system" (some "Auto-approved (below threshold)") now
    match ap.2 with
    | Except.error e => mkFailure cmd e (some ap.1) events now
    | Except.ok _ => step8to11 env cmd now ap.1 (events + 1)

/-- The merge performed by `_fetch_sap_data`: doc number and fiscal year
are copied onto the aggregate when the snapshot carries those keys. -/
def mergeSAP (po : PurchaseOrder) (sap : SAPData) : PurchaseOrder :=
  { po with
    sap_doc_number := (match sap.sap_doc_number with
      | some d => some d
      | none => po.sap_doc_number),
    sap_fiscal_year := (match sap.sap_fiscal_year with
      | some y => some y
      | none => po.sap_fiscal_year) }

/-- Steps 5-6 of `execute`: fetch the SAP snapshot (merging doc number and
fiscal year when the keys are present), transition to RECONCILING and run
the reconciliation; a discrepancy aborts with the reconciliation-failure
result. -/
def step5to6 (env : Env) (cmd : ProcessPOCommand) (now : Int)
    (po : PurchaseOrder) (events : Nat) : ProcessPOResult :=
  match env.get_po_data with
  | Except.error e => mkFailure cmd e (some po) events now
  | Except.ok sap =>
  let po := mergeSAP po sap
  let events := events + 1
  let t := po.transition_to .RECONCILING "Starting reconciliation" cmd.user now
  match t.2 with
  | Except.error e => mkFailure cmd e (some t.1) events now
  | Except.ok _ =>
  let events := events + 1
  let rc := reconcileData t.1 sap
  let po := rc.2
  let events := events + 1
  if rc.1 then step7 env cmd now po events
  else
    { success := false,
      po := some po,
      message := "Reconciliation failed",
      errors := po.discrepancies,
      events_published := events,
      validation_passed := true,
      sap_sync_completed := true,
      reconciliation_passed := false }

/-- Steps 3-4 of `execute`: acquire the PO lock (a ValueError is re-raised
as the AlreadyLocked message built from the post-call lock fields),
transition to PROCESSING, and best-effort lock the SAP document. -/
def step3to4 (env : Env) (cmd : ProcessPOCommand) (now : Int)
    (po : PurchaseOrder) (events : Nat) : ProcessPOResult :=
  let al := po.acquire_lock cmd.user 30 now
  match al.2 with
  | Except.error _ =>
      mkFailure cmd ("PO " ++ al.1.po_number ++ " is already locked by "
          ++ strOr al.1.locked_by "unknown" ++ " until "
          ++ (match al.1.lock_expires_at with
              | some t => toString t
              | none => "unknown"))
        (some al.1) events now
  | Except.ok _ =>
  let events := events + 1
  let t := al.1.transition_to .PROCESSING "Starting processing" cmd.user now
  match t.2 with
  | Except.error e => mkFailure cmd e (some t.1) events now
  | Except.ok _ =>
  let po := t.1
  let events := events + 1
  let events := if ¬ cmd.skip_sap_lock ∧ optTruthy po.sap_doc_number
                   ∧ env.lock_document_ok
                then events + 1 else events
  step5to6 env cmd now po events

/-- Step 2 of `execute` (`_validate_po`): on invalid data the source
transitions to ERROR (an attempt that itself raises when the current
status has no edge to ERROR) and then raises POValidationException, so
either exception reaches the outer handler; the `(False, errors)` branch
of the caller is dead code. -/
def step2 (env : Env) (cmd : ProcessPOCommand) (now : Int)
    (po : PurchaseOrder) (events : Nat) : ProcessPOResult :=
  let v := po.validate
  if v.1 then step3to4 env cmd now po (events + 1)
  else
    let t := po.transition_to .ERROR
        ("Validation failed: " ++ toString v.2) "system" now
    match t.2 with
    | Except.error e => mkFailure cmd e (some t.1) events now
    | Except.ok _ =>
        mkFailure cmd
          ("PO " ++ t.1.po_number ++ " validation failed: "
            ++ String.intercalate ", " v.2)
          (some t.1) events now

/-- Model of `ProcessPOUseCase.execute`: fetch (NotFound when absent), requeue an
ERROR aggregate to PENDING, then run steps 2-11. -/
def execute (env : Env) (cmd : ProcessPOCommand) (now : Int) :
    ProcessPOResult :=
  match env.fetched_po with
  | none => mkFailure cmd ("PO not found: " ++ cmd.po_number) none 0 now
  | some po =>
    let t := if po.status = POStatus.ERROR
             then po.transition_to .PENDING "Requeue after error" cmd.user now
             else (po, Except.ok ())
    match t.2 with
    | Except.error e => mkFailure cmd e (some t.1) 0 now
    | Except.ok _ => step2 env cmd now t.1 1

end ProcessPOUseCase

/-! ## Application layer: the approve use case (approve_po.py) -/

/-- Model of `ApprovePOCommand`. -/
structure ApprovePOCommand where
  po_number : String
  approved_by : String
  notes : Option String := none
  post_invoice : Bool := true
  notify : Bool := true
deriving DecidableEq

/-- Model of `ApprovalResult`. -/
structure ApprovalResult where
  success : Bool
  po : Option PurchaseOrder
  message : String
  action : String
  invoice_posted : Bool := false
  errors : List String := []
deriving DecidableEq

/-- External outcomes for one run of the approve use case. -/
structure ApproveEnv where
  fetched_po : Option PurchaseOrder
  post_invoice_ok : Bool := true
deriving DecidableEq

namespace ApprovePOUseCase

/-- The message of the InvalidApprovalException raised by step 2. -/
def invalidApprovalMsg (po : PurchaseOrder) : String :=
  "Cannot approve PO " ++ po.po_number ++ " in status " ++ po.status.value
    ++ ". Reason: PO must be in AWAITING_APPROVAL status, but is in "
    ++ po.status.value

/-- Model of `ApprovePOUseCase.execute`: fetch, require AWAITING_APPROVAL, approve,
optionally post the invoice and on success transition to COMPLETED (that
transition is inside the guarded try, so its failure is swallowed while
`invoice_posted` stays true); notification failures are swallowed.  Any
raised exception becomes the failure result with the aggregate as mutated
so far. -/
def execute (env : ApproveEnv) (cmd : ApprovePOCommand) (now : Int) :
    ApprovalResult :=
  match env.fetched_po with
  | none =>
      { success := false, po := none,
        message := "Failed to approve PO: PO not found: " ++ cmd.po_number,
        action := "approved",
        errors := ["PO not found: " ++ cmd.po_number] }
  | some po =>
    if po.status ≠ POStatus.AWAITING_APPROVAL then
      { success := false, po := some po,
        message := "Failed to approve PO: " ++ invalidApprovalMsg po,
        action := "approved",
        errors := [invalidApprovalMsg po] }
    else
      let ap := po.approve cmd.approved_by cmd.notes now
      match ap.2 with
      | Except.error e =>
          { success := false, po := some ap.1,
            message := "Failed to approve PO: " ++ e,
            action := "approved", errors := [e] }
      | Except.ok _ =>
        let invoice_posted := cmd.post_invoice && env.post_invoice_ok
        let po :=
          if invoice_posted then
            (ap.1.transition_to .COMPLETED "Completed after approval"
              cmd.approved_by now).1
          else ap.1
        { success := true, po := some po,
          message := "PO " ++ cmd.po_number ++ " approved successfully",
          action := "approved",
          invoice_posted := invoice_posted }

end ApprovePOUseCase

/-! ## Concrete sample data for witnesses and counterexamples -/

/-- A consistent item: 2 × 500 = 1000. -/
def itemW : POItem :=
  { item_number := "10", description := "Widget",
    quantity := 2, unit_price := 500, total_price := 1000 }

/-- A valid PENDING purchase order. -/
def poPending : PurchaseOrder :=
  { id := "1", po_number := "PO-1", vendor_code := "V001",
    vendor_name := "Acme", total_amount := 1000, items := [itemW],
    status := .PENDING }

/-- The same order, LOCKED and held by alice until t = 1800. -/
def poLocked : PurchaseOrder :=
  { poPending with status := .LOCKED, locked_by := some "alice",
                   locked_at := some 0, lock_expires_at := some 1800 }

/-- A locked order whose lock deadline t = 10 is already past at t = 100. -/
def poExpired : PurchaseOrder :=
  { poPending with status := .LOCKED, locked_by := some "alice",
                   locked_at := some 0, lock_expires_at := some 10 }

/-- The same order in DRAFT (no transition DRAFT → LOCKED exists). -/
def poDraft : PurchaseOrder := { poPending with status := .DRAFT }

/-- The same data with another currency and status (for the
currency-insensitivity of the approval threshold). -/
def poDraftUSD : PurchaseOrder :=
  { poPending with currency := "USD", status := .DRAFT, vendor_name := "Bcme" }

/-- An order whose item sum (1000) disagrees with its total (5000). -/
def poMismatch : PurchaseOrder := { poPending with total_amount := 5000 }

/-- A PENDING order with invalid data (non-positive total, no items). -/
def poInvalid : PurchaseOrder :=
  { id := "2", po_number := "PO-C1", vendor_code := "V001",
    vendor_name := "Acme", total_amount := 0, items := [],
    status := .PENDING }

/-- Environment for the validation-failure run. -/
def envInvalid : Env := { fetched_po := some poInvalid }

/-- Command for the validation-failure run. -/
def cmdInvalid : ProcessPOCommand := { po_number := "PO-C1", user := "alice" }

/-- Approve-use-case environment fetching the DRAFT order. -/
def approveEnvW : ApproveEnv := { fetched_po := some poDraft }

/-- Approve-use-case command. -/
def approveCmdW : ApprovePOCommand :=
  { po_number := "PO-1", approved_by := "boss" }

/-- Environment for a full automatic-approval run in which posting the
invoice to the gateway fails. -/
def envAuto : Env :=
  { fetched_po := some poPending,
    get_po_data := Except.ok { vendor_code := some "V001",
                               total_amount := some 1000, items_count := 1 },
    post_invoice_ok := false }

/-- Command for the automatic-approval run. -/
def cmdAuto : ProcessPOCommand := { po_number := "PO-1", user := "alice" }

/-- The aggregate returned by the automatic-approval run. -/
def poAutoFinal : PurchaseOrder :=
  (ProcessPOUseCase.execute envAuto cmdAuto 0).po.getD poPending

/-! ## Helper lemmas about the aggregate operations -/

lemma add_event_version (po : PurchaseOrder) (n : Int) (t : String)
    (d : EventData) : (po.add_event n t d).version = po.version := rfl

lemma add_event_status (po : PurchaseOrder) (n : Int) (t : String)
    (d : EventData) : (po.add_event n t d).status = po.status := rfl

lemma transition_to_ok_iff (po : PurchaseOrder) (s : POStatus) (r u : String)
    (n : Int) :
    (po.transition_to s r u n).2 = Except.ok () ↔
      s ∈ PurchaseOrder.VALID_TRANSITIONS po.status := by
  by_cases hc : s ∈ PurchaseOrder.VALID_TRANSITIONS po.status
  · simp [PurchaseOrder.transition_to, PurchaseOrder.can_transition_to, hc]
  · simp [PurchaseOrder.transition_to, PurchaseOrder.can_transition_to, hc]

lemma transition_to_fst_of_not_mem (po : PurchaseOrder) (s : POStatus)
    (r u : String) (n : Int)
    (h : s ∉ PurchaseOrder.VALID_TRANSITIONS po.status) :
    (po.transition_to s r u n).1 = po := by
  simp [PurchaseOrder.transition_to, PurchaseOrder.can_transition_to, h]

lemma transition_to_ok_version (po : PurchaseOrder) (s : POStatus)
    (r u : String) (n : Int)
    (hok : (po.transition_to s r u n).2 = Except.ok ()) :
    (po.transition_to s r u n).1.version = po.version + 1 := by
  by_cases hc : po.can_transition_to s
  · simp only [PurchaseOrder.transition_to, if_pos hc]
    rfl
  · simp [PurchaseOrder.transition_to, if_neg hc] at hok

lemma transition_to_ok_status (po : PurchaseOrder) (s : POStatus)
    (r u : String) (n : Int)
    (hok : (po.transition_to s r u n).2 = Except.ok ()) :
    (po.transition_to s r u n).1.status = s := by
  by_cases hc : po.can_transition_to s
  · simp only [PurchaseOrder.transition_to, if_pos hc]
    rfl
  · simp [PurchaseOrder.transition_to, if_neg hc] at hok

lemma is_locked_snd_version (po : PurchaseOrder) (n : Int) :
    (po.is_locked n).2.version = po.version := by
  unfold PurchaseOrder.is_locked
  by_cases hb : optTruthy po.locked_by
  · simp only [if_pos hb]
    cases po.lock_expires_at with
    | none => rfl
    | some exp =>
        by_cases he : n > exp
        · simp only [if_pos he]; rfl
        · simp only [if_neg he]
  · simp only [if_neg hb]

lemma ne_nil_append_right {α} (l1 : List α) {l2 : List α} (h : l2 ≠ []) :
    l1 ++ l2 ≠ [] := by
  intro hn
  exact h (List.append_eq_nil.mp hn).2

lemma release_lock_version (po : PurchaseOrder) (u : String) (n : Int) :
    (po.release_lock u n).1.version = po.version := by
  have h := is_locked_snd_version po n
  unfold PurchaseOrder.release_lock
  by_cases hb : (po.is_locked n).1
  · by_cases hu : (po.is_locked n).2.locked_by ≠ some u
    · simp [hb, hu, h]
    · simp [hb, hu, PurchaseOrder.add_event, h]
  · simp [hb, h]

lemma transition_then_event_ok_version (po : PurchaseOrder) (s : POStatus)
    (r u : String) (n : Int) (et : String) (ed : EventData)
    (hok : (po.transition_then_event s r u n et ed).2 = Except.ok ()) :
    (po.transition_then_event s r u n et ed).1.version = po.version + 1 := by
  unfold PurchaseOrder.transition_then_event at hok ⊢
  rcases ht : (po.transition_to s r u n).2 with e | uu
  · simp [ht] at hok
  · simp only [ht, add_event_version]
    exact transition_to_ok_version po s r u n (by rw [ht])

lemma transition_then_event_ok_status (po : PurchaseOrder) (s : POStatus)
    (r u : String) (n : Int) (et : String) (ed : EventData)
    (hok : (po.transition_then_event s r u n et ed).2 = Except.ok ()) :
    (po.transition_then_event s r u n et ed).1.status = s := by
  unfold PurchaseOrder.transition_then_event at hok ⊢
  rcases ht : (po.transition_to s r u n).2 with e | uu
  · simp [ht] at hok
  · simp only [ht, add_event_status]
    exact transition_to_ok_status po s r u n (by rw [ht])

lemma acquire_lock_ok_version (po : PurchaseOrder) (u : String) (d n : Int)
    (hok : (po.acquire_lock u d n).2 = Except.ok ()) :
    (po.acquire_lock u d n).1.version = po.version + 1 := by
  have hvl := is_locked_snd_version po n
  simp only [PurchaseOrder.acquire_lock] at hok ⊢
  by_cases hb : (po.is_locked n).1
  · simp [hb] at hok
  · rw [if_neg hb] at hok ⊢
    rw [transition_then_event_ok_version _ _ _ _ _ _ _ hok]
    show ((po.is_locked n).2).version + 1 = po.version + 1
    rw [hvl]

lemma approve_ok_version (po : PurchaseOrder) (u : String)
    (notes : Option String) (n : Int)
    (hok : (po.approve u notes n).2 = Except.ok ()) :
    (po.approve u notes n).1.version = po.version + 1 := by
  simp only [PurchaseOrder.approve] at hok ⊢
  by_cases hs : po.status ≠ POStatus.AWAITING_APPROVAL
      ∧ po.status ≠ POStatus.RECONCILING
  · simp [hs] at hok
  · rw [if_neg hs] at hok ⊢
    rw [transition_then_event_ok_version _ _ _ _ _ _ _ hok]

lemma reject_ok_version (po : PurchaseOrder) (u r : String) (n : Int)
    (hok : (po.reject u r n).2 = Except.ok ()) :
    (po.reject u r n).1.version = po.version + 1 := by
  simp only [PurchaseOrder.reject] at hok ⊢
  by_cases hs : po.status ≠ POStatus.AWAITING_APPROVAL
  · simp [hs] at hok
  · rw [if_neg hs] at hok ⊢
    rw [transition_then_event_ok_version _ _ _ _ _ _ _ hok]

lemma itemsErrors_ne_nil (it : POItem) (hbad : it.validate = false) :
    ∀ (idx : Nat) (items : List POItem), it ∈ items →
      PurchaseOrder.itemsErrors idx items ≠ [] := by
  intro idx items
  induction items generalizing idx with
  | nil => intro h; cases h
  | cons a rest ih =>
      intro hmem hnil
      simp only [PurchaseOrder.itemsErrors] at hnil
      rcases List.append_eq_nil.mp hnil with ⟨h1, h2⟩
      rcases List.mem_cons.mp hmem with heq | hm
      · subst heq
        rw [hbad] at h1
        simp at h1
      · exact ih (idx + 1) hm h2

/-! ## Claim C2 -/

/-- C2 counterexample: `release_lock` by the holder clears the lock fields
and appends a "lock_released" event — a recorded mutation — yet the
version counter is not strictly greater after the call (it is unchanged),
refuting the claim as stated. -/
theorem C2_counterexample_release_lock :
    (poLocked.release_lock "alice" 0).1.locked_by = none
    ∧ (poLocked.release_lock "alice" 0).1.events.length
        = poLocked.events.length + 1
    ∧ ¬ poLocked.version < (poLocked.release_lock "alice" 0).1.version := by
  decide

/-- C2 amended: the status-changing operations (transition_to,
acquire_lock, approve, reject) strictly increase the version counter on
success, but release_lock and the expiry side effect of is_locked mutate
the lock fields and append events while leaving the version unchanged. -/
theorem C2_version_discipline :
    (∀ (po : PurchaseOrder) (s : POStatus) (r u : String) (n : Int),
      (po.transition_to s r u n).2 = Except.ok () →
      po.version < (po.transition_to s r u n).1.version)
    ∧ (∀ (po : PurchaseOrder) (u : String) (d n : Int),
      (po.acquire_lock u d n).2 = Except.ok () →
      po.version < (po.acquire_lock u d n).1.version)
    ∧ (∀ (po : PurchaseOrder) (u : String) (notes : Option String) (n : Int),
      (po.approve u notes n).2 = Except.ok () →
      po.version < (po.approve u notes n).1.version)
    ∧ (∀ (po : PurchaseOrder) (u r : String) (n : Int),
      (po.reject u r n).2 = Except.ok () →
      po.version < (po.reject u r n).1.version)
    ∧ (∀ (po : PurchaseOrder) (u : String) (n : Int),
      (po.release_lock u n).1.version = po.version)
    ∧ (∀ (po : PurchaseOrder) (n : Int),
      (po.is_locked n).2.version = po.version) := by
  refine ⟨?_, ?_, ?_, ?_, ?_, ?_⟩
  · intro po s r u n hok
    rw [transition_to_ok_version po s r u n hok]
    omega
  · intro po u d n hok
    rw [acquire_lock_ok_version po u d n hok]
    omega
  · intro po u notes n hok
    rw [approve_ok_version po u notes n hok]
    omega
  · intro po u r n hok
    rw [reject_ok_version po u r n hok]
    omega
  · exact release_lock_version
  · exact is_locked_snd_version

/-- C2 amended witness: concrete successful transition and lock
acquisition both strictly increase the version. -/
theorem C2_version_discipline_witness :
    poPending.version < (poPending.transition_to .LOCKED "go" "u" 0).1.version
    ∧ poPending.version < (poPending.acquire_lock "u" 30 0).1.version :=
  ⟨C2_version_discipline.1 poPending .LOCKED "go" "u" 0 rfl,
   C2_version_discipline.2.1 poPending "u" 30 0 rfl⟩

/-! ## Claim C9 -/

/-- C9: on an unlocked purchase order whose status has no edge to LOCKED,
`acquire_lock` fails, yet it has already written locked_by / locked_at /
lock_expires_at, so afterwards the aggregate reports is_locked() true
while its status (and the event log) is unchanged. -/
theorem C9_failed_acquire_phantom_lock (po : PurchaseOrder) (u : String)
    (d now : Int) (hu : u ≠ "") (hb : po.locked_by = none)
    (hnt : POStatus.LOCKED ∉ PurchaseOrder.VALID_TRANSITIONS po.status)
    (hd : 0 < d) :
    (∃ e, (po.acquire_lock u d now).2 = Except.error e)
    ∧ (po.acquire_lock u d now).1.locked_by = some u
    ∧ (po.acquire_lock u d now).1.locked_at = some now
    ∧ (po.acquire_lock u d now).1.lock_expires_at = some (now + d * 60)
    ∧ (po.acquire_lock u d now).1.status = po.status
    ∧ (po.acquire_lock u d now).1.events = po.events
    ∧ ((po.acquire_lock u d now).1.is_locked now).1 = true := by
  have hl : po.is_locked now = (false, po) := by
    unfold PurchaseOrder.is_locked
    simp [hb, optTruthy]
  have hexp : ¬ now > now + d * 60 := by omega
  have hacq : po.acquire_lock u d now =
      ({ po with locked_by := some u, locked_at := some now,
                 lock_expires_at := some (now + d * 60) },
       Except.error ("Invalid transition: " ++ po.status.value ++ " -> "
         ++ POStatus.value .LOCKED)) := by
    simp only [PurchaseOrder.acquire_lock, hl]
    rw [if_neg (by simp)]
    unfold PurchaseOrder.transition_then_event PurchaseOrder.transition_to
    rw [if_neg (by simp [PurchaseOrder.can_transition_to, hnt])]
  rw [hacq]
  refine ⟨⟨_, rfl⟩, rfl, rfl, rfl, rfl, rfl, ?_⟩
  unfold PurchaseOrder.is_locked
  simp [optTruthy, hu, hexp]

/-- C9 witness: a DRAFT order (no DRAFT → LOCKED edge) at t = 0 with a 30
minute duration. -/
theorem C9_failed_acquire_phantom_lock_witness :
    (∃ e, (poDraft.acquire_lock "bob" 30 0).2 = Except.error e)
    ∧ (poDraft.acquire_lock "bob" 30 0).1.locked_by = some "bob"
    ∧ (poDraft.acquire_lock "bob" 30 0).1.locked_at = some 0
    ∧ (poDraft.acquire_lock "bob" 30 0).1.lock_expires_at = some (0 + 30 * 60)
    ∧ (poDraft.acquire_lock "bob" 30 0).1.status = poDraft.status
    ∧ (poDraft.acquire_lock "bob" 30 0).1.events = poDraft.events
    ∧ ((poDraft.acquire_lock "bob" 30 0).1.is_locked 0).1 = true :=
  C9_failed_acquire_phantom_lock poDraft "bob" 30 0
    (by decide) rfl (by decide) (by decide)

/-! ## Claim C3 -/

/-- C3: for every current state S and target T, `transition_to(T)` succeeds
iff T is in the row of the fixed transition table for S, and when it fails
the aggregate is returned entirely unchanged. -/
theorem C3_transition_iff_table (po : PurchaseOrder) (s : POStatus)
    (r u : String) (n : Int) :
    ((po.transition_to s r u n).2 = Except.ok () ↔
      s ∈ PurchaseOrder.VALID_TRANSITIONS po.status)
    ∧ (s ∉ PurchaseOrder.VALID_TRANSITIONS po.status →
      (po.transition_to s r u n).1 = po) :=
  ⟨transition_to_ok_iff po s r u n, transition_to_fst_of_not_mem po s r u n⟩

/-- C3 witness: PENDING → COMPLETED is not in the table, and the failed
call leaves the aggregate untouched. -/
theorem C3_transition_iff_table_witness :
    (poPending.transition_to .COMPLETED "done" "u" 0).1 = poPending :=
  (C3_transition_iff_table poPending .COMPLETED "done" "u" 0).2 (by decide)

/-! ## Claim C4 -/

/-- C4: on a purchase order whose lock holder is set (truthy) and whose
deadline lies in the future, `acquire_lock` fails with the AlreadyLocked
error for every requesting actor, and changes nothing. -/
theorem C4_acquire_fails_on_unexpired_lock (po : PurchaseOrder)
    (holder u : String) (d now exp : Int)
    (hb : po.locked_by = some holder) (hne : holder ≠ "")
    (he : po.lock_expires_at = some exp) (hfut : now < exp) :
    (∃ e, (po.acquire_lock u d now).2 = Except.error e)
    ∧ (po.acquire_lock u d now).1 = po := by
  have hl : po.is_locked now = (true, po) := by
    unfold PurchaseOrder.is_locked
    rw [hb, he]
    have : ¬ now > exp := by omega
    simp [optTruthy, hne, this]
  unfold PurchaseOrder.acquire_lock
  rw [hl]
  exact ⟨⟨_, rfl⟩, rfl⟩

/-- C4 witness: alice holds the lock until t = 1800; at t = 0 even alice
herself cannot re-acquire it. -/
theorem C4_acquire_fails_on_unexpired_lock_witness :
    (∃ e, (poLocked.acquire_lock "alice" 30 0).2 = Except.error e)
    ∧ (poLocked.acquire_lock "alice" 30 0).1 = poLocked :=
  C4_acquire_fails_on_unexpired_lock poLocked "alice" "alice" 30 0 1800
    rfl (by decide) rfl (by decide)

/-! ## Claim C5 -/

/-- C5: `is_locked` on an expired lock returns false, clears exactly the
three lock fields and appends exactly one "lock_expired" event; a second
call returns false again without any further change. -/
theorem C5_expired_lock_lazy_clear (po : PurchaseOrder) (holder : String)
    (exp now now2 : Int)
    (hb : po.locked_by = some holder) (hne : holder ≠ "")
    (he : po.lock_expires_at = some exp) (hpast : exp < now) :
    po.is_locked now =
      (false,
       { po with locked_by := none, locked_at := none, lock_expires_at := none,
                 events := po.events ++
                   [{ timestamp := now, event_type := "lock_expired",
                      status := po.status.value, version := po.version,
                      data := EventData.lock_expired }] })
    ∧ (po.is_locked now).2.is_locked now2 = (false, (po.is_locked now).2) := by
  have h1 : po.is_locked now =
      (false,
       { po with locked_by := none, locked_at := none, lock_expires_at := none,
                 events := po.events ++
                   [{ timestamp := now, event_type := "lock_expired",
                      status := po.status.value, version := po.version,
                      data := EventData.lock_expired }] }) := by
    unfold PurchaseOrder.is_locked
    rw [hb, he]
    have hgt : now > exp := hpast
    simp [optTruthy, hne, hgt, PurchaseOrder.add_event]
  refine ⟨h1, ?_⟩
  rw [h1]
  unfold PurchaseOrder.is_locked
  simp [optTruthy]

/-- C5 witness: the lock held by alice expired at t = 10; at t = 100 it is cleared
with one "lock_expired" event, and a second call at t = 200 changes
nothing. -/
theorem C5_expired_lock_lazy_clear_witness :
    poExpired.is_locked 100 =
      (false,
       { poExpired with locked_by := none, locked_at := none,
                        lock_expires_at := none,
                        events := poExpired.events ++
                          [{ timestamp := 100, event_type := "lock_expired",
                             status := poExpired.status.value,
                             version := poExpired.version,
                             data := EventData.lock_expired }] })
    ∧ (poExpired.is_locked 100).2.is_locked 200 =
        (false, (poExpired.is_locked 100).2) :=
  C5_expired_lock_lazy_clear poExpired "alice" 10 100 200
    rfl (by decide) rfl (by decide)

/-! ## Claim C7 -/

/-- C7: `validate()` returns failure (its error list non-empty, its flag
false) whenever the sum of the item totals differs from total_amount by
more than 0.01, or some item total differs from quantity × unit price by
more than 0.01. -/
theorem C7_validate_fails_on_mismatch (po : PurchaseOrder)
    (h : |PurchaseOrder.itemsTotal po.items - po.total_amount| > 1/100
         ∨ ∃ it ∈ po.items,
             |it.quantity * it.unit_price - it.total_price| > 1/100) :
    po.validate.1 = false ∧ po.validate.2 ≠ [] := by
  have hne : po.validate.2 ≠ [] := by
    intro hnil
    simp only [PurchaseOrder.validate, List.append_eq_nil] at hnil
    have hG := hnil.2
    have hF := hnil.1.2
    have hE := hnil.1.1.2
    rcases h with hA | ⟨it, hmem, hgt⟩
    · by_cases hitems : po.items = []
      · rw [if_pos hitems] at hE
        simp at hE
      · rw [if_pos ⟨hitems, hA⟩] at hF
        simp at hF
    · have hbad : it.validate = false := by
        unfold POItem.validate
        simp only [decide_eq_false_iff_not, not_lt]
        exact le_of_lt hgt
      exact itemsErrors_ne_nil it hbad 0 po.items hmem hG
  refine ⟨?_, hne⟩
  have h1 : po.validate.1 = po.validate.2.isEmpty := rfl
  rw [h1]
  cases hcase : po.validate.2 with
  | nil => exact absurd hcase hne
  | cons a l => rfl

/-! ## Claim C1 -/

/-- C1 (divergence evidence): on a PENDING order with validation errors,
the source attempts PENDING → ERROR, which is itself an invalid transition
and raises; the outer handler then fails to force ERROR for the same
reason, so the aggregate is returned completely unchanged (still PENDING)
and the error list is the single InvalidTransition message — not the
validation error list. -/
theorem C1_validation_failure_divergence :
    poInvalid.validate =
      (false, ["Total amount must be positive", "PO must have at least one item"])
    ∧ (ProcessPOUseCase.execute envInvalid cmdInvalid 0).success = false
    ∧ (ProcessPOUseCase.execute envInvalid cmdInvalid 0).po = some poInvalid
    ∧ (ProcessPOUseCase.execute envInvalid cmdInvalid 0).errors
        = ["Invalid transition: pending -> error"] := by
  with_unfolding_all decide

/-! ## Claim C10 chain lemmas -/

namespace ProcessPOUseCase

lemma step8to11_success_invoice (env : Env) (cmd : ProcessPOCommand)
    (now : Int) (po : PurchaseOrder) (events : Nat) :
    (step8to11 env cmd now po events).success = true →
    (step8to11 env cmd now po events).invoice_posted = true := by
  unfold step8to11
  rcases h1 : (po.transition_to .COMPLETED "Processing completed"
      cmd.user now).2 with e1 | u1
  · simp only [h1]
    intro hs
    simp [mkFailure] at hs
  · simp only [h1]
    rcases h2 : ((po.transition_to .COMPLETED "Processing completed"
        cmd.user now).1.release_lock cmd.user now).2 with e2 | u2
    · simp only [h2]
      intro hs
      simp [mkFailure] at hs
    · simp only [h2]
      rcases h3 : (if optTruthy ((po.transition_to .COMPLETED
            "Processing completed" cmd.user now).1.release_lock
            cmd.user now).1.sap_doc_number
          then env.unlock_document else Except.ok true) with e3 | b3
      · simp only [h3]
        intro hs
        simp [mkFailure] at hs
      · simp only [h3]
        intro _
        trivial

lemma step7_success_characterization (env : Env) (cmd : ProcessPOCommand)
    (now : Int) (po : PurchaseOrder) (events : Nat) :
    (step7 env cmd now po events).success = true →
    (step7 env cmd now po events).invoice_posted = true
    ∨ ∃ q, (step7 env cmd now po events).po = some q
        ∧ q.status = POStatus.AWAITING_APPROVAL := by
  unfold step7
  by_cases hm : (po.requires_approval || cmd.force_approval) = true
  · rw [if_pos hm]
    rcases h1 : (po.transition_to .AWAITING_APPROVAL
        ("Amount " ++ toString po.total_amount ++ " requires approval")
        cmd.user now).2 with e1 | u1
    · simp only [h1]
      intro hs
      simp [mkFailure] at hs
    · simp only [h1]
      rcases h2 : env.notify_approval_required with e2 | b2
      · simp only [h2]
        intro hs
        simp [mkFailure] at hs
      · simp only [h2]
        intro _
        right
        refine ⟨_, rfl, ?_⟩
        exact transition_to_ok_status po .AWAITING_APPROVAL
          ("Amount " ++ toString po.total_amount ++ " requires approval")
          cmd.user now (by rw [h1])
  · rw [if_neg hm]
    rcases ha : (po.approve "system" (some "Auto-approved (below threshold)")
        now).2 with ea | ua
    · simp only [ha]
      intro hs
      simp [mkFailure] at hs
    · simp only [ha]
      intro hs
      exact Or.inl (step8to11_success_invoice env cmd now _ _ hs)

lemma step5to6_success_characterization (env : Env) (cmd : ProcessPOCommand)
    (now : Int) (po : PurchaseOrder) (events : Nat) :
    (step5to6 env cmd now po events).success = true →
    (step5to6 env cmd now po events).invoice_posted = true
    ∨ ∃ q, (step5to6 env cmd now po events).po = some q
        ∧ q.status = POStatus.AWAITING_APPROVAL := by
  unfold step5to6
  rcases hg : env.get_po_data with eg | sap
  · simp only [hg]
    intro hs
    simp [mkFailure] at hs
  · simp only [hg]
    rcases ht : ((mergeSAP po sap).transition_to .RECONCILING
        "Starting reconciliation" cmd.user now).2 with et | ut
    · simp only [ht]
      intro hs
      simp [mkFailure] at hs
    · simp only [ht]
      rcases hrc : reconcileData ((mergeSAP po sap).transition_to .RECONCILING
          "Starting reconciliation" cmd.user now).1 sap with ⟨passed, po2⟩
      simp only [hrc]
      cases passed
      · intro hs
        simp at hs
      · intro hs
        simp only [if_true] at hs ⊢
        exact step7_success_characterization env cmd now po2 _ hs

lemma step3to4_success_characterization (env : Env) (cmd : ProcessPOCommand)
    (now : Int) (po : PurchaseOrder) (events : Nat) :
    (step3to4 env cmd now po events).success = true →
    (step3to4 env cmd now po events).invoice_posted = true
    ∨ ∃ q, (step3to4 env cmd now po events).po = some q
        ∧ q.status = POStatus.AWAITING_APPROVAL := by
  unfold step3to4
  rcases ha : (po.acquire_lock cmd.user 30 now).2 with ea | ua
  · simp only [ha]
    intro hs
    simp [mkFailure] at hs
  · simp only [ha]
    rcases ht : ((po.acquire_lock cmd.user 30 now).1.transition_to .PROCESSING
        "Starting processing" cmd.user now).2 with et | ut
    · simp only [ht]
      intro hs
      simp [mkFailure] at hs
    · simp only [ht]
      intro hs
      exact step5to6_success_characterization env cmd now _ _ hs

lemma step2_success_characterization (env : Env) (cmd : ProcessPOCommand)
    (now : Int) (po : PurchaseOrder) (events : Nat) :
    (step2 env cmd now po events).success = true →
    (step2 env cmd now po events).invoice_posted = true
    ∨ ∃ q, (step2 env cmd now po events).po = some q
        ∧ q.status = POStatus.AWAITING_APPROVAL := by
  unfold step2
  by_cases hv : po.validate.1 = true
  · rw [if_pos hv]
    intro hs
    exact step3to4_success_characterization env cmd now po _ hs
  · rw [if_neg hv]
    rcases ht : (po.transition_to .ERROR
        ("Validation failed: " ++ toString po.validate.2) "system" now).2
        with e | u
    · simp only [ht]
      intro hs
      simp [mkFailure] at hs
    · simp only [ht]
      intro hs
      simp [mkFailure] at hs

end ProcessPOUseCase

/-! ## Claim C10 -/

/-- C10: whenever `execute` returns a success whose aggregate is COMPLETED
(the full-success result of the automatic-approval path), that result
carries invoice_posted = true — for every environment, including those in
which posting the invoice failed and the posting helper returned false. -/
theorem C10_success_hardcodes_invoice_posted (env : Env)
    (cmd : ProcessPOCommand) (now : Int) (p : PurchaseOrder)
    (hs : (ProcessPOUseCase.execute env cmd now).success = true)
    (hp : (ProcessPOUseCase.execute env cmd now).po = some p)
    (hc : p.status = POStatus.COMPLETED) :
    (ProcessPOUseCase.execute env cmd now).invoice_posted = true := by
  have hchar : (ProcessPOUseCase.execute env cmd now).success = true →
      (ProcessPOUseCase.execute env cmd now).invoice_posted = true
      ∨ ∃ q, (ProcessPOUseCase.execute env cmd now).po = some q
          ∧ q.status = POStatus.AWAITING_APPROVAL := by
    unfold ProcessPOUseCase.execute
    rcases hf : env.fetched_po with _ | po0
    · simp only [hf]
      intro hs2
      simp [ProcessPOUseCase.mkFailure] at hs2
    · simp only [hf]
      rcases ht : (if po0.status = POStatus.ERROR
          then po0.transition_to .PENDING "Requeue after error" cmd.user now
          else (po0, Except.ok ())).2 with e | u
      · simp only [ht]
        intro hs2
        simp [ProcessPOUseCase.mkFailure] at hs2
      · simp only [ht]
        intro hs2
        exact ProcessPOUseCase.step2_success_characterization env cmd now _ _ hs2
  rcases hchar hs with hi | ⟨q, hq, hqs⟩
  · exact hi
  · rw [hp] at hq
    injection hq with hpq
    rw [hpq] at hc
    rw [hc] at hqs
    exact absurd hqs (by decide)

set_option maxRecDepth 40000 in
/-- C10 witness: a concrete full run in which the gateway rejects the
invoice (post_invoice_ok = false) still completes with
invoice_posted = true. -/
theorem C10_success_hardcodes_invoice_posted_witness :
    envAuto.post_invoice_ok = false
    ∧ (ProcessPOUseCase.execute envAuto cmdAuto 0).invoice_posted = true :=
  ⟨rfl, C10_success_hardcodes_invoice_posted envAuto cmdAuto 0 poAutoFinal
    (by with_unfolding_all decide)
    (by with_unfolding_all decide)
    (by with_unfolding_all decide)⟩

/-! ## Claim C8 -/

/-- C8: the approve use case on an aggregate not in AWAITING_APPROVAL
returns failure carrying the InvalidApproval error, with the aggregate
completely unchanged. -/
theorem C8_approve_requires_awaiting_approval (env : ApproveEnv)
    (cmd : ApprovePOCommand) (now : Int) (po : PurchaseOrder)
    (hf : env.fetched_po = some po)
    (hs : po.status ≠ POStatus.AWAITING_APPROVAL) :
    (ApprovePOUseCase.execute env cmd now).success = false
    ∧ (ApprovePOUseCase.execute env cmd now).po = some po
    ∧ (ApprovePOUseCase.execute env cmd now).errors
        = [ApprovePOUseCase.invalidApprovalMsg po] := by
  simp only [ApprovePOUseCase.execute, hf]
  rw [if_pos hs]
  exact ⟨rfl, rfl, rfl⟩

/-- C8 witness: approving a DRAFT order fails with the InvalidApproval
error and returns the order unchanged. -/
theorem C8_approve_requires_awaiting_approval_witness :
    (ApprovePOUseCase.execute approveEnvW approveCmdW 0).success = false
    ∧ (ApprovePOUseCase.execute approveEnvW approveCmdW 0).po = some poDraft
    ∧ (ApprovePOUseCase.execute approveEnvW approveCmdW 0).errors
        = [ApprovePOUseCase.invalidApprovalMsg poDraft] :=
  C8_approve_requires_awaiting_approval approveEnvW approveCmdW 0 poDraft
    rfl (by decide)

/-- C7 witness: the item sum is 1000 but the order total is 5000. -/
theorem C7_validate_fails_on_mismatch_witness :
    poMismatch.validate.1 = false ∧ poMismatch.validate.2 ≠ [] :=
  C7_validate_fails_on_mismatch poMismatch
    (Or.inl (by with_unfolding_all decide))

/-! ## Claim C6 -/

/-- C6: `requires_approval()` is true exactly when total_amount exceeds
10000.00, and it depends on no field other than total_amount. -/
theorem C6_requires_approval_threshold :
    (∀ po : PurchaseOrder,
      po.requires_approval = true ↔ (10000 : ℚ) < po.total_amount)
    ∧ (∀ po q : PurchaseOrder, po.total_amount = q.total_amount →
      po.requires_approval = q.requires_approval) := by
  constructor
  · intro po
    simp [PurchaseOrder.requires_approval, PurchaseOrder.APPROVAL_THRESHOLD]
  · intro po q h
    simp [PurchaseOrder.requires_approval, PurchaseOrder.APPROVAL_THRESHOLD, h]

/-- C6 witness: the threshold predicate agrees on two orders sharing only
the amount (different currency, status, vendor name). -/
theorem C6_requires_approval_threshold_witness :
    (poPending.requires_approval = true ↔ (10000 : ℚ) < poPending.total_amount)
    ∧ poPending.requires_approval = poDraftUSD.requires_approval :=
  ⟨C6_requires_approval_threshold.1 poPending,
   C6_requires_approval_threshold.2 poPending poDraftUSD rfl⟩

end POPR
